import Mathlib

/-!
Shallow embedding of the brainflow python binding
(src/python-package/brainflow/board_shim.py) together with the native
streaming core it calls into.  The binding code is embedded directly from
the source; the native library (BoardController) and the exit-code
enumeration live outside src/, so they are modelled from the spec
(sections 3, 4.1, 6 and 7) and marked as such.

Numeric sample values and timestamps are carried opaquely by the binding
(it only allocates, slices, reshapes and stacks them), so they are
represented by `Int` stand-ins; no arithmetic is ever performed on them.
-/

/-- Modelled from the spec: the fixed status enumeration of
`brainflow.exit_codes.StreamExitCodes` (the module is not under src/).
The spec fixes STATUS_OK = 0 and one distinct nonzero code per error
kind of section 7; the concrete nonzero numerals are arbitrary. -/
inductive StreamExitCodes where
  | STATUS_OK
  | UNSUPPORTED_BOARD_ERROR
  | INVALID_STATE_ERROR
  | CONNECTION_ERROR
  | TIMEOUT_ERROR
  | IO_ERROR
  | DECODE_ERROR
  | ALLOCATION_ERROR
  deriving DecidableEq, Repr

/-- Modelled from the spec: the integer value of each status code
(zero means success, nonzero is one specific error kind). -/
def StreamExitCodes.value : StreamExitCodes → Int
  | .STATUS_OK => 0
  | .UNSUPPORTED_BOARD_ERROR => 1
  | .INVALID_STATE_ERROR => 2
  | .CONNECTION_ERROR => 3
  | .TIMEOUT_ERROR => 4
  | .IO_ERROR => 5
  | .DECODE_ERROR => 6
  | .ALLOCATION_ERROR => 7

/-- Modelled from the spec: the python enum member name, as used by
`StreamExitCodes (exit_code).name` in the BrainFlowError constructor. -/
def StreamExitCodes.enumName : StreamExitCodes → String
  | .STATUS_OK => "STATUS_OK"
  | .UNSUPPORTED_BOARD_ERROR => "UNSUPPORTED_BOARD_ERROR"
  | .INVALID_STATE_ERROR => "INVALID_STATE_ERROR"
  | .CONNECTION_ERROR => "CONNECTION_ERROR"
  | .TIMEOUT_ERROR => "TIMEOUT_ERROR"
  | .IO_ERROR => "IO_ERROR"
  | .DECODE_ERROR => "DECODE_ERROR"
  | .ALLOCATION_ERROR => "ALLOCATION_ERROR"

/-- Exceptions raised by the binding: `BrainFlowError (message, exit_code)`,
numpy ValueError, and the plain Exception of BoardControllerDLL. -/
inductive PyErr where
  | brainflow (message : String) (exit_code : Int)
  | valueError (message : String)
  | generic (message : String)
  deriving DecidableEq, Repr

/-- BrainFlowError.__init__: detailed_message is
name-of-code ++ ":" ++ code ++ " " ++ message (the python format
string percent-s colon percent-d space percent-s). -/
def mkDetailed (code : StreamExitCodes) (message : String) : String :=
  code.enumName ++ ":" ++ toString code.value ++ " " ++ message

/-- CYTHON board constants from the source. -/
def CYTHON.board_id : Int := 0

def CYTHON.fs_hz : Int := 250

def CYTHON.num_eeg_channels : Int := 8

def CYTHON.package_length : Int := 12

/-- Modelled from the spec: one decoded sample — per-field readings of one
package plus one timestamp (section 3, Sample). -/
structure Sample where
  values : List Int
  timestamp : Int
  deriving DecidableEq, Repr

/-- Modelled from the spec: SampleBuffer, an ordered sequence of samples
(oldest first) with a maximum retained count `capacity` (section 3). -/
structure SampleBuffer where
  capacity : Nat
  samples : List Sample
  deriving DecidableEq, Repr

def SampleBuffer.empty (capacity : Nat) : SampleBuffer :=
  { capacity := capacity, samples := [] }

/-- Modelled from the spec: push appends, evicting the oldest entry first
when length has reached capacity (section 4.1, FIFO overwrite). -/
def SampleBuffer.push (b : SampleBuffer) (s : Sample) : SampleBuffer :=
  { b with samples := (b.samples ++ [s]).drop ((b.samples.length + 1) - b.capacity) }

def SampleBuffer.pushAll (b : SampleBuffer) (ss : List Sample) : SampleBuffer :=
  ss.foldl SampleBuffer.push b

/-- Modelled from the spec: count() returns the current number of retained
samples (section 4.1). -/
def SampleBuffer.count (b : SampleBuffer) : Nat :=
  b.samples.length

/-- Modelled from the spec: drain_latest(n) returns the n most recently
pushed samples (all retained samples if n exceeds count), oldest-first,
non-destructively; n less than or equal to 0 yields an empty result
(section 4.1). -/
def SampleBuffer.drain_latest (b : SampleBuffer) (n : Int) : List Sample :=
  if n ≤ 0 then [] else b.samples.drop (b.samples.length - n.toNat)

/-- Modelled from the spec: drain_all() returns every retained sample
oldest-first and logically empties the buffer (section 4.1). -/
def SampleBuffer.drain_all (b : SampleBuffer) : List Sample × SampleBuffer :=
  (b.samples, { b with samples := [] })

/-- numpy.zeros(n): a fresh zero array; a negative size raises ValueError. -/
def npZeros (n : Int) : Except PyErr (List Int) :=
  if n < 0 then .error (.valueError "negative dimensions are not allowed")
  else .ok (List.replicate n.toNat 0)

/-- A ctypes out-parameter write: the native side overwrites the first
elements of the caller-allocated array in place; the array keeps its
allocated length. -/
def overwrite (arr ws : List Int) : List Int :=
  ws.take arr.length ++ arr.drop (min ws.length arr.length)

/-- Python slice a[0:stop]: a nonnegative stop clamps to the length, a
negative stop counts from the end. -/
def pySliceStop (xs : List Int) (stop : Int) : List Int :=
  if 0 ≤ stop then xs.take stop.toNat else xs.take (xs.length - stop.natAbs)

/-- Split a flat list into `rows` consecutive chunks of `cols` elements. -/
def takeRows (cols : Nat) : Nat → List Int → List (List Int)
  | 0, _ => []
  | r + 1, xs => xs.take cols :: takeRows cols r (xs.drop cols)

/-- numpy reshape to (rows, cols): negative dimensions and size mismatches
raise ValueError. -/
def npReshape (rows cols : Int) (xs : List Int) : Except PyErr (List (List Int)) :=
  if rows < 0 ∨ cols < 0 then .error (.valueError "negative dimensions are not allowed")
  else if xs.length ≠ rows.toNat * cols.toNat then .error (.valueError "cannot reshape array")
  else .ok (takeRows cols.toNat rows.toNat xs)

/-- numpy.column_stack((m, v)): appends v as a last column; mismatched
first dimensions raise ValueError. -/
def columnStack (m : List (List Int)) (v : List Int) : Except PyErr (List (List Int)) :=
  if m.length = v.length then .ok (List.zipWith (fun row t => row ++ [t]) m v)
  else .error (.valueError "array dimensions mismatch")

/-- Modelled from the spec: the native BoardController library behind the
ctypes declarations (its source is not under src/).  Each exported
function returns a status from the fixed enumeration (section 6); the
data-retrieval calls write into caller-allocated arrays from the
session's SampleBuffer (sections 4.1 and 4.4). -/
structure NativeEnv where
  buffer : SampleBuffer
  prepareStatus : Int → String → StreamExitCodes
  startStatus : Int → StreamExitCodes
  stopStatus : StreamExitCodes
  releaseStatus : StreamExitCodes
  currentStatus : StreamExitCodes
  dataStatus : StreamExitCodes
  countStatus : StreamExitCodes
  logStatus : Int → StreamExitCodes

/-- Modelled from the spec: the native get_current_board_data forwards to
drain_latest and writes the flattened per-sample values, the parallel
timestamps, and the actual count (section 6). -/
def NativeEnv.currentWrites (env : NativeEnv) (n : Int) : List Int × List Int × List Int :=
  let ss := env.buffer.drain_latest n
  ((ss.map Sample.values).flatten, ss.map Sample.timestamp, [(ss.length : Int)])

/-- Modelled from the spec: the native get_board_data forwards to
drain_all and writes every retained sample oldest-first (section 6). -/
def NativeEnv.allWrites (env : NativeEnv) : List Int × List Int :=
  let ss := (env.buffer.drain_all).1
  ((ss.map Sample.values).flatten, ss.map Sample.timestamp)

/-- Modelled from the spec: the native get_board_data_count writes
SampleBuffer.count() into the length-1 out array (sections 4.4 and 6). -/
def NativeEnv.countWrites (env : NativeEnv) : List Int :=
  [(env.buffer.count : Int)]

/-- BoardShim instance state: the fields set by __init__. -/
structure BoardShim where
  port_name : String
  board_id : Int
  package_length : Int
  fs_hz : Int
  num_eeg_channels : Int
  deriving DecidableEq, Repr

/-- BoardShim.__init__: a board_id other than CYTHON.board_id raises
BrainFlowError with UNSUPPORTED_BOARD_ERROR and no object is
constructed. -/
def BoardShim.init (board_id : Int) (port_name : String) : Except PyErr BoardShim :=
  if board_id = CYTHON.board_id then
    .ok { port_name := port_name
          board_id := board_id
          package_length := CYTHON.package_length
          fs_hz := CYTHON.fs_hz
          num_eeg_channels := CYTHON.num_eeg_channels }
  else
    .error (.brainflow (mkDetailed .UNSUPPORTED_BOARD_ERROR "unsupported board type")
      StreamExitCodes.UNSUPPORTED_BOARD_ERROR.value)

/-- The BoardShim built by __init__ for the supported board. -/
def cythonShim (port : String) : BoardShim :=
  { port_name := port
    board_id := CYTHON.board_id
    package_length := CYTHON.package_length
    fs_hz := CYTHON.fs_hz
    num_eeg_channels := CYTHON.num_eeg_channels }

def BoardShim.prepare_session (shim : BoardShim) (env : NativeEnv) : Except PyErr Unit :=
  let res := env.prepareStatus shim.board_id shim.port_name
  if res.value ≠ StreamExitCodes.STATUS_OK.value then
    .error (.brainflow (mkDetailed res "unable to prepare streaming session") res.value)
  else .ok ()

/-- The default value of start_stream's num_samples parameter. -/
def startStreamDefaultSamples : Int := 3600 * 250

def BoardShim.start_stream (shim : BoardShim) (env : NativeEnv) (num_samples : Int) : Except PyErr Unit :=
  let _ := shim
  let res := env.startStatus num_samples
  if res.value ≠ StreamExitCodes.STATUS_OK.value then
    .error (.brainflow (mkDetailed res "unable to start streaming session") res.value)
  else .ok ()

/-- start_stream called without an explicit argument uses the default. -/
def BoardShim.start_stream_default (shim : BoardShim) (env : NativeEnv) : Except PyErr Unit :=
  shim.start_stream env startStreamDefaultSamples

def BoardShim.stop_stream (shim : BoardShim) (env : NativeEnv) : Except PyErr Unit :=
  let _ := shim
  let res := env.stopStatus
  if res.value ≠ StreamExitCodes.STATUS_OK.value then
    .error (.brainflow (mkDetailed res "unable to stop streaming session") res.value)
  else .ok ()

def BoardShim.release_session (shim : BoardShim) (env : NativeEnv) : Except PyErr Unit :=
  let _ := shim
  let res := env.releaseStatus
  if res.value ≠ StreamExitCodes.STATUS_OK.value then
    .error (.brainflow (mkDetailed res "unable to release streaming session") res.value)
  else .ok ()

def BoardShim.enable_board_logger (env : NativeEnv) : Except PyErr Unit :=
  let res := env.logStatus 2
  if res.value ≠ StreamExitCodes.STATUS_OK.value then
    .error (.brainflow (mkDetailed res "unable to enable logger") res.value)
  else .ok ()

def BoardShim.disable_board_logger (env : NativeEnv) : Except PyErr Unit :=
  let res := env.logStatus 6
  if res.value ≠ StreamExitCodes.STATUS_OK.value then
    .error (.brainflow (mkDetailed res "unable to disable logger") res.value)
  else .ok ()

def BoardShim.enable_dev_board_logger (env : NativeEnv) : Except PyErr Unit :=
  let res := env.logStatus 0
  if res.value ≠ StreamExitCodes.STATUS_OK.value then
    .error (.brainflow (mkDetailed res "unable to enable logger") res.value)
  else .ok ()

/-- BoardShim.get_current_board_data, step for step: allocate
data_arr = zeros(num_samples * package_length), time_arr = zeros(num_samples),
current_size = zeros(1); native call; status check; the len(current_size)==0
branch returning None; slice, reshape and column_stack. -/
def BoardShim.get_current_board_data (shim : BoardShim) (env : NativeEnv)
    (num_samples : Int) : Except PyErr (Option (List (List Int))) := do
  let data_arr0 ← npZeros (num_samples * shim.package_length)
  let time_arr0 ← npZeros num_samples
  let current_size0 ← npZeros 1
  let (dataW, timeW, sizeW) := env.currentWrites num_samples
  let data_arr := overwrite data_arr0 dataW
  let time_arr := overwrite time_arr0 timeW
  let current_size := overwrite current_size0 sizeW
  let res := env.currentStatus
  if res.value ≠ StreamExitCodes.STATUS_OK.value then
    throw (.brainflow (mkDetailed res "unable to get current data") res.value)
  if current_size.length = 0 then
    return none
  else
    let c := current_size.headD 0
    let sliced := pySliceStop data_arr (c * shim.package_length)
    let reshaped ← npReshape c shim.package_length sliced
    let time_sliced := pySliceStop time_arr c
    let stacked ← columnStack reshaped time_sliced
    return some stacked

def BoardShim.get_immediate_board_data (shim : BoardShim) (env : NativeEnv) :
    Except PyErr (Option (List (List Int))) :=
  shim.get_current_board_data env 1

def BoardShim.get_board_data_count (shim : BoardShim) (env : NativeEnv) : Except PyErr Int := do
  let _ := shim
  let data_size0 ← npZeros 1
  let data_size := overwrite data_size0 env.countWrites
  let res := env.countStatus
  if res.value ≠ StreamExitCodes.STATUS_OK.value then
    throw (.brainflow (mkDetailed res "unable to obtain buffer size") res.value)
  return data_size.headD 0

def BoardShim.get_board_data (shim : BoardShim) (env : NativeEnv) :
    Except PyErr (List (List Int)) := do
  let data_size ← shim.get_board_data_count env
  let time_arr0 ← npZeros data_size
  let data_arr0 ← npZeros (data_size * shim.package_length)
  let (dataW, timeW) := env.allWrites
  let data_arr := overwrite data_arr0 dataW
  let time_arr := overwrite time_arr0 timeW
  let res := env.dataStatus
  if res.value ≠ StreamExitCodes.STATUS_OK.value then
    throw (.brainflow (mkDetailed res "unable to get board data") res.value)
  let reshaped ← npReshape data_size shim.package_length data_arr
  columnStack reshaped time_arr

/-- BoardControllerDLL class state: the cached singleton (identified by a
construction counter) and how many times the native library has been
loaded; LoadLibrary runs inside __init__, abstracted into the counter. -/
structure DLLState where
  inst : Option Nat
  loadCount : Nat
  deriving DecidableEq, Repr

def initialDLLState : DLLState :=
  { inst := none, loadCount := 0 }

/-- BoardControllerDLL.get_instance: returns the cached instance if set;
otherwise checks for a 64-bit interpreter (raising before any library
load when the check fails) and only then constructs, loading the
library once. -/
def BoardControllerDLL.get_instance (is64 : Bool) (st : DLLState) :
    Except PyErr Nat × DLLState :=
  match st.inst with
  | some i => (.ok i, st)
  | none =>
    if is64 then
      (.ok st.loadCount, { inst := some st.loadCount, loadCount := st.loadCount + 1 })
    else
      (.error (.generic "You need 64-bit python to use this library"), st)

/-- Repeated calls to get_instance, oldest result first. -/
def BoardControllerDLL.callsFrom (is64 : Bool) (st : DLLState) :
    Nat → List (Except PyErr Nat) × DLLState
  | 0 => ([], st)
  | k + 1 =>
    let (r, st1) := BoardControllerDLL.get_instance is64 st
    let (rs, st2) := BoardControllerDLL.callsFrom is64 st1 k
    (r :: rs, st2)

/-- The status contract of one binding operation: native success means the
operation completes normally, a nonzero status raises BrainFlowError
carrying that status as exit_code and its enum name in the message. -/
def statusContract {α : Type} (code : StreamExitCodes) (msg : String)
    (op : Except PyErr α) : Prop :=
  (code = .STATUS_OK → ∃ a, op = .ok a) ∧
  (code ≠ .STATUS_OK → op = .error (.brainflow (mkDetailed code msg) code.value))

def sampleA : Sample :=
  { values := [1, 2, 3, 4, 5, 6, 7, 8, 9, 10, 11, 12], timestamp := 100 }

def sampleB : Sample :=
  { values := [21, 22, 23, 24, 25, 26, 27, 28, 29, 30, 31, 32], timestamp := 200 }

/-- A concrete native environment: two retained samples, all calls
succeeding. -/
def cEnv : NativeEnv :=
  { buffer := { capacity := 900000, samples := [sampleA, sampleB] }
    prepareStatus := fun _ _ => .STATUS_OK
    startStatus := fun _ => .STATUS_OK
    stopStatus := .STATUS_OK
    releaseStatus := .STATUS_OK
    currentStatus := .STATUS_OK
    dataStatus := .STATUS_OK
    countStatus := .STATUS_OK
    logStatus := fun _ => .STATUS_OK }

lemma StreamExitCodes.value_eq_zero_iff (s : StreamExitCodes) :
    s.value = StreamExitCodes.STATUS_OK.value ↔ s = .STATUS_OK := by
  cases s <;> simp [StreamExitCodes.value]

lemma length_overwrite (arr ws : List Int) : (overwrite arr ws).length = arr.length := by
  simp [overwrite]
  omega

lemma overwrite_of_le {arr ws : List Int} (h : ws.length ≤ arr.length) :
    overwrite arr ws = ws ++ arr.drop ws.length := by
  simp [overwrite, List.take_of_length_le h, Nat.min_eq_left h]

lemma takeRows_length (k r : Nat) (xs : List Int) : (takeRows k r xs).length = r := by
  induction r generalizing xs with
  | zero => simp [takeRows]
  | succ r ih => simp [takeRows, ih]

lemma takeRows_row_length (k : Nat) {r : Nat} {xs : List Int}
    (h : xs.length = r * k) : ∀ row ∈ takeRows k r xs, row.length = k := by
  induction r generalizing xs with
  | zero => simp [takeRows]
  | succ r ih =>
    intro row hrow
    rw [Nat.succ_mul] at h
    simp only [takeRows, List.mem_cons] at hrow
    rcases hrow with h1 | h2
    · subst h1
      rw [List.length_take]
      omega
    · exact ih (by rw [List.length_drop]; omega) row h2

lemma drain_latest_length (b : SampleBuffer) (n : Int) :
    (b.drain_latest n).length = min b.samples.length n.toNat := by
  simp only [SampleBuffer.drain_latest]
  split
  · simp
    omega
  · simp
    omega

lemma flatten_length_const {ls : List (List Int)} {k : Nat}
    (h : ∀ l ∈ ls, l.length = k) : ls.flatten.length = k * ls.length := by
  induction ls with
  | nil => simp
  | cons l ls ih =>
    simp only [List.flatten_cons, List.length_append, List.length_cons]
    rw [h l (by simp), ih (fun x hx => h x (by simp [hx]))]
    ring

lemma takeRows_flatten {ls : List (List Int)} {k : Nat}
    (h : ∀ l ∈ ls, l.length = k) : takeRows k ls.length ls.flatten = ls := by
  induction ls with
  | nil => simp [takeRows]
  | cons l ls ih =>
    simp only [List.length_cons, List.flatten_cons, takeRows]
    have hl : l.length = k := h l (by simp)
    have t1 : List.take k (l ++ ls.flatten) = l := by
      rw [← hl]
      exact List.take_left _ _
    have t2 : List.drop k (l ++ ls.flatten) = ls.flatten := by
      rw [← hl]
      exact List.drop_left _ _
    rw [t1, t2, ih (fun x hx => h x (by simp [hx]))]

lemma push_capacity (b : SampleBuffer) (s : Sample) : (b.push s).capacity = b.capacity := by
  simp [SampleBuffer.push]

lemma push_samples_length (b : SampleBuffer) (s : Sample) :
    (b.push s).samples.length = min (b.samples.length + 1) b.capacity := by
  simp [SampleBuffer.push]
  omega

lemma pushAll_samples (ss : List Sample) :
    ∀ b : SampleBuffer, b.samples.length ≤ b.capacity →
      (b.pushAll ss).samples =
        (b.samples ++ ss).drop ((b.samples.length + ss.length) - b.capacity) := by
  induction ss with
  | nil =>
    intro b h
    simp [SampleBuffer.pushAll]
    rw [Nat.sub_eq_zero_of_le h, List.drop_zero]
  | cons s ss ih =>
    intro b h
    have step : b.pushAll (s :: ss) = (b.push s).pushAll ss := by
      simp [SampleBuffer.pushAll]
    have hlen : (b.push s).samples.length ≤ (b.push s).capacity := by
      rw [push_samples_length, push_capacity]
      omega
    rw [step, ih (b.push s) hlen]
    rw [push_capacity]
    simp only [SampleBuffer.push]
    have hd : (b.samples.length + 1) - b.capacity ≤ (b.samples ++ [s]).length := by
      simp
    rw [← List.drop_append_of_le_length hd, List.drop_drop]
    have assoc : b.samples ++ [s] ++ ss = b.samples ++ s :: ss := by
      simp
    rw [assoc]
    congr 1
    simp only [List.length_drop, List.length_append, List.length_cons, List.length_nil]
    omega

lemma callsFrom_cached (i c : Nat) (k : Nat) :
    BoardControllerDLL.callsFrom true { inst := some i, loadCount := c } k =
      (List.replicate k (.ok i), { inst := some i, loadCount := c }) := by
  induction k with
  | zero => simp [BoardControllerDLL.callsFrom]
  | succ k ih =>
    simp [BoardControllerDLL.callsFrom, BoardControllerDLL.get_instance, ih,
      List.replicate_succ]

lemma callsFrom_not64 (c : Nat) (k : Nat) :
    BoardControllerDLL.callsFrom false { inst := none, loadCount := c } k =
      (List.replicate k (.error (.generic "You need 64-bit python to use this library")),
        { inst := none, loadCount := c }) := by
  induction k with
  | zero => simp [BoardControllerDLL.callsFrom]
  | succ k ih =>
    simp [BoardControllerDLL.callsFrom, BoardControllerDLL.get_instance, ih,
      List.replicate_succ]

/-- C3: for every board_id other than the supported id 0, constructing the
session object fails with BrainFlowError carrying exit code
UNSUPPORTED_BOARD_ERROR (its enum name in the message), so no BoardShim is
ever built for such an id; BoardShim.__init__ consults no native state at
all. -/
theorem init_unsupported_board (board_id : Int) (port : String)
    (h : board_id ≠ 0) :
    BoardShim.init board_id port =
      .error (.brainflow (mkDetailed .UNSUPPORTED_BOARD_ERROR "unsupported board type")
        StreamExitCodes.UNSUPPORTED_BOARD_ERROR.value) := by
  simp only [BoardShim.init, CYTHON.board_id]
  rw [if_neg h]

theorem init_unsupported_board_witness :
    (1 : Int) ≠ 0 ∧
      BoardShim.init 1 "COM3" =
        .error (.brainflow (mkDetailed .UNSUPPORTED_BOARD_ERROR "unsupported board type")
          StreamExitCodes.UNSUPPORTED_BOARD_ERROR.value) :=
  ⟨by decide, init_unsupported_board 1 "COM3" (by decide)⟩

/-- C5: start_stream called without an explicit argument requests a buffer
of 3600 * 250 = 900000 samples from the native start_stream, one hour of
retention at the supported board's 250 Hz rate. -/
theorem start_stream_default_buffer :
    startStreamDefaultSamples = 900000 ∧
      startStreamDefaultSamples = CYTHON.fs_hz * 3600 ∧
      (∀ (port : String) (env : NativeEnv),
        (cythonShim port).start_stream_default env =
          (cythonShim port).start_stream env 900000) ∧
      (∀ (port : String) (env : NativeEnv),
        env.startStatus 900000 = .STATUS_OK →
          (cythonShim port).start_stream_default env = .ok ()) := by
  refine ⟨by decide, by decide, fun port env => rfl, fun port env h => ?_⟩
  have e : startStreamDefaultSamples = 900000 := by decide
  simp [BoardShim.start_stream_default, BoardShim.start_stream, e, h,
    StreamExitCodes.value]

theorem start_stream_default_buffer_witness :
    cEnv.startStatus 900000 = .STATUS_OK ∧
      (cythonShim "COM3").start_stream_default cEnv = .ok () :=
  ⟨by decide,
   (start_stream_default_buffer).2.2.2 "COM3" cEnv (by decide)⟩

/-- C7: for every sequence of pushes longer than the capacity, the
SampleBuffer retains exactly the most recent capacity-many samples in push
order, its length never exceeds the capacity, and a push onto a full
nonempty buffer evicts exactly the oldest retained sample. -/
theorem sampleBuffer_fifo (cap : Nat) (ss : List Sample) (h : cap < ss.length) :
    ((SampleBuffer.empty cap).pushAll ss).samples = ss.drop (ss.length - cap) ∧
      ((SampleBuffer.empty cap).pushAll ss).samples.length = cap ∧
      (∀ (b : SampleBuffer) (s : Sample), b.samples.length ≤ b.capacity →
        (b.push s).samples.length ≤ b.capacity) ∧
      (∀ (b : SampleBuffer) (s : Sample), b.samples.length = b.capacity →
        0 < b.capacity → (b.push s).samples = b.samples.drop 1 ++ [s]) := by
  have base : ((SampleBuffer.empty cap).pushAll ss).samples = ss.drop (ss.length - cap) := by
    have := pushAll_samples ss (SampleBuffer.empty cap) (by simp [SampleBuffer.empty])
    simpa [SampleBuffer.empty] using this
  refine ⟨base, ?_, ?_, ?_⟩
  · rw [base, List.length_drop]
    omega
  · intro b s hb
    rw [push_samples_length]
    omega
  · intro b s hfull hpos
    simp only [SampleBuffer.push, hfull]
    rw [Nat.add_sub_cancel_left]
    have h1 : (1 : Nat) ≤ b.samples.length := by omega
    rw [List.drop_append_of_le_length h1]

theorem sampleBuffer_fifo_witness :
    2 < [sampleA, sampleB, sampleA].length ∧
      (((SampleBuffer.empty 2).pushAll [sampleA, sampleB, sampleA]).samples =
          [sampleA, sampleB, sampleA].drop ([sampleA, sampleB, sampleA].length - 2) ∧
        ((SampleBuffer.empty 2).pushAll [sampleA, sampleB, sampleA]).samples.length = 2 ∧
        (∀ (b : SampleBuffer) (s : Sample), b.samples.length ≤ b.capacity →
          (b.push s).samples.length ≤ b.capacity) ∧
        (∀ (b : SampleBuffer) (s : Sample), b.samples.length = b.capacity →
          0 < b.capacity → (b.push s).samples = b.samples.drop 1 ++ [s])) :=
  ⟨by decide, sampleBuffer_fifo 2 [sampleA, sampleB, sampleA] (by decide)⟩

/-- C9: get_immediate_board_data is extensionally the call
get_current_board_data(1): same results, same errors, for every shim and
every native state. -/
theorem immediate_is_current_one (shim : BoardShim) (env : NativeEnv) :
    shim.get_immediate_board_data env = shim.get_current_board_data env 1 :=
  rfl

/-- C10: from a fresh process state, on a 64-bit interpreter every call to
BoardControllerDLL.get_instance returns the identical singleton and the
native library is loaded exactly once across any number of calls; on a
non-64-bit interpreter every call raises before any library load, leaving
the load count at zero. -/
theorem dll_singleton (k : Nat) (h : 1 ≤ k) :
    (BoardControllerDLL.callsFrom true initialDLLState k).1 =
        List.replicate k (.ok 0) ∧
      (BoardControllerDLL.callsFrom true initialDLLState k).2.loadCount = 1 ∧
      (BoardControllerDLL.callsFrom false initialDLLState k).1 =
        List.replicate k
          (.error (.generic "You need 64-bit python to use this library")) ∧
      (BoardControllerDLL.callsFrom false initialDLLState k).2.loadCount = 0 := by
  obtain ⟨j, rfl⟩ : ∃ j, k = j + 1 := ⟨k - 1, by omega⟩
  refine ⟨?_, ?_, ?_, ?_⟩
  · simp [BoardControllerDLL.callsFrom, BoardControllerDLL.get_instance,
      initialDLLState, callsFrom_cached, List.replicate_succ]
  · simp [BoardControllerDLL.callsFrom, BoardControllerDLL.get_instance,
      initialDLLState, callsFrom_cached]
  · rw [show initialDLLState = { inst := none, loadCount := 0 } from rfl, callsFrom_not64]
  · rw [show initialDLLState = { inst := none, loadCount := 0 } from rfl, callsFrom_not64]

theorem dll_singleton_witness :
    1 ≤ 3 ∧
      ((BoardControllerDLL.callsFrom true initialDLLState 3).1 =
          List.replicate 3 (.ok 0) ∧
        (BoardControllerDLL.callsFrom true initialDLLState 3).2.loadCount = 1 ∧
        (BoardControllerDLL.callsFrom false initialDLLState 3).1 =
          List.replicate 3
            (.error (.generic "You need 64-bit python to use this library")) ∧
        (BoardControllerDLL.callsFrom false initialDLLState 3).2.loadCount = 0) :=
  ⟨by decide, dll_singleton 3 (by decide)⟩

lemma overwrite_single (x y : Int) : overwrite [x] [y] = [y] := by
  simp [overwrite]

lemma pySliceStop_nonneg_length (xs : List Int) (stop : Int) (h1 : 0 ≤ stop)
    (h2 : stop.toNat ≤ xs.length) : (pySliceStop xs stop).length = stop.toNat := by
  simp [pySliceStop, if_pos h1]
  omega

lemma npReshape_ok (rows cols : Int) (xs : List Int) (hr : 0 ≤ rows) (hc : 0 ≤ cols)
    (hlen : xs.length = rows.toNat * cols.toNat) :
    npReshape rows cols xs = .ok (takeRows cols.toNat rows.toNat xs) := by
  simp [npReshape, hlen]
  omega

lemma columnStack_ok (m : List (List Int)) (v : List Int) (h : m.length = v.length) :
    columnStack m v = .ok (List.zipWith (fun row t => row ++ [t]) m v) := by
  simp [columnStack, h]

lemma get_current_ok (port : String) (env : NativeEnv) (n : Int) (hn : 0 ≤ n)
    (hs : env.currentStatus = .STATUS_OK) :
    (cythonShim port).get_current_board_data env n =
      .ok (some (List.zipWith (fun row t => row ++ [t])
        (takeRows 12 (env.buffer.drain_latest n).length
          (pySliceStop
            (overwrite (List.replicate (n * 12).toNat 0)
              (List.map Sample.values (env.buffer.drain_latest n)).flatten)
            (((env.buffer.drain_latest n).length : Int) * 12)))
        (pySliceStop
          (overwrite (List.replicate n.toNat 0)
            (List.map Sample.timestamp (env.buffer.drain_latest n)))
          ((env.buffer.drain_latest n).length : Int)))) := by
  have h12 : ¬ n * (cythonShim port).package_length < 0 := by
    simp [cythonShim, CYTHON.package_length]
    omega
  have hn' : ¬ n < 0 := by omega
  have hcle : (env.buffer.drain_latest n).length ≤ n.toNat := by
    rw [drain_latest_length]
    omega
  simp only [BoardShim.get_current_board_data, npZeros, h12, if_neg, hn',
    ite_false, Bind.bind, Except.bind, hs, StreamExitCodes.value,
    NativeEnv.currentWrites, pure, Except.pure]
  norm_num
  rw [overwrite_single, if_neg (by simp : ¬ (([((env.buffer.drain_latest n).length : Int)] : List Int) = []))]
  simp only [List.head?_cons, Option.getD_some]
  have hpk : (cythonShim port).package_length = 12 := rfl
  rw [hpk]
  have hdlen : (overwrite (List.replicate (n * 12).toNat 0)
      (List.map Sample.values (env.buffer.drain_latest n)).flatten).length
      = (n * 12).toNat := by
    rw [length_overwrite, List.length_replicate]
  have hslice : (pySliceStop (overwrite (List.replicate (n * 12).toNat 0)
      (List.map Sample.values (env.buffer.drain_latest n)).flatten)
      (((env.buffer.drain_latest n).length : Int) * 12)).length
      = 12 * (env.buffer.drain_latest n).length := by
    rw [pySliceStop_nonneg_length]
    · omega
    · positivity
    · rw [hdlen]
      omega
  have htlen : (pySliceStop (overwrite (List.replicate n.toNat 0)
      (List.map Sample.timestamp (env.buffer.drain_latest n)))
      ((env.buffer.drain_latest n).length : Int)).length
      = (env.buffer.drain_latest n).length := by
    rw [pySliceStop_nonneg_length]
    · omega
    · positivity
    · rw [length_overwrite, List.length_replicate]
      omega
  have e1 : npReshape ((env.buffer.drain_latest n).length : Int) 12
      (pySliceStop (overwrite (List.replicate (n * 12).toNat 0)
        (List.map Sample.values (env.buffer.drain_latest n)).flatten)
        (((env.buffer.drain_latest n).length : Int) * 12))
      = .ok (takeRows 12 (env.buffer.drain_latest n).length
        (pySliceStop (overwrite (List.replicate (n * 12).toNat 0)
          (List.map Sample.values (env.buffer.drain_latest n)).flatten)
          (((env.buffer.drain_latest n).length : Int) * 12))) := by
    rw [npReshape_ok _ _ _ (by positivity) (by norm_num) (by rw [hslice]; simp; ring)]
    norm_num [Int.toNat_natCast]
    rfl
  simp only [e1]
  have e2 : columnStack (takeRows 12 (env.buffer.drain_latest n).length
      (pySliceStop (overwrite (List.replicate (n * 12).toNat 0)
        (List.map Sample.values (env.buffer.drain_latest n)).flatten)
        (((env.buffer.drain_latest n).length : Int) * 12)))
      (pySliceStop (overwrite (List.replicate n.toNat 0)
        (List.map Sample.timestamp (env.buffer.drain_latest n)))
        ((env.buffer.drain_latest n).length : Int))
      = .ok (List.zipWith (fun row t => row ++ [t])
        (takeRows 12 (env.buffer.drain_latest n).length
          (pySliceStop (overwrite (List.replicate (n * 12).toNat 0)
            (List.map Sample.values (env.buffer.drain_latest n)).flatten)
            (((env.buffer.drain_latest n).length : Int) * 12)))
        (pySliceStop (overwrite (List.replicate n.toNat 0)
          (List.map Sample.timestamp (env.buffer.drain_latest n)))
          ((env.buffer.drain_latest n).length : Int))) := by
    rw [columnStack_ok _ _ (by rw [takeRows_length, htlen])]
  simp only [e2]

lemma value_ne_zero {s : StreamExitCodes} (h : s ≠ .STATUS_OK) :
    s.value ≠ StreamExitCodes.STATUS_OK.value := by
  cases s <;> simp_all [StreamExitCodes.value]

lemma get_current_err (port : String) (env : NativeEnv) (n : Int) (hn : 0 ≤ n)
    (hs : env.currentStatus ≠ .STATUS_OK) :
    (cythonShim port).get_current_board_data env n =
      .error (.brainflow (mkDetailed env.currentStatus "unable to get current data")
        env.currentStatus.value) := by
  have h12 : ¬ n * (cythonShim port).package_length < 0 := by
    simp [cythonShim, CYTHON.package_length]
    omega
  have hn' : ¬ n < 0 := by omega
  have hv := value_ne_zero hs
  simp only [BoardShim.get_current_board_data, npZeros, h12, if_neg, hn',
    ite_false, Bind.bind, Except.bind, throw, throwThe,
    MonadExceptOf.throw, pure, Except.pure]
  norm_num
  intro h
  exact absurd h hv

lemma get_current_neg (port : String) (env : NativeEnv) (n : Int) (hn : n < 0) :
    (cythonShim port).get_current_board_data env n =
      .error (.valueError "negative dimensions are not allowed") := by
  have h12 : n * (cythonShim port).package_length < 0 := by
    simp [cythonShim, CYTHON.package_length]
    omega
  simp only [BoardShim.get_current_board_data, npZeros, h12, ite_true,
    Bind.bind, Except.bind]

lemma get_count_ok (port : String) (env : NativeEnv)
    (hc : env.countStatus = .STATUS_OK) :
    (cythonShim port).get_board_data_count env = .ok (env.buffer.count : Int) := by
  simp only [BoardShim.get_board_data_count, npZeros, NativeEnv.countWrites,
    Bind.bind, Except.bind, hc, StreamExitCodes.value, pure, Except.pure]
  norm_num
  rw [overwrite_single]
  simp

lemma get_count_err (port : String) (env : NativeEnv)
    (hc : env.countStatus ≠ .STATUS_OK) :
    (cythonShim port).get_board_data_count env =
      .error (.brainflow (mkDetailed env.countStatus "unable to obtain buffer size")
        env.countStatus.value) := by
  have hv := value_ne_zero hc
  simp only [BoardShim.get_board_data_count, npZeros, NativeEnv.countWrites,
    Bind.bind, Except.bind, throw, throwThe,
    MonadExceptOf.throw, pure, Except.pure]
  norm_num
  intro h
  exact absurd h hv

lemma get_board_data_ok (port : String) (env : NativeEnv)
    (hc : env.countStatus = .STATUS_OK) (hd : env.dataStatus = .STATUS_OK) :
    (cythonShim port).get_board_data env =
      .ok (List.zipWith (fun row t => row ++ [t])
        (takeRows 12 env.buffer.count
          (overwrite (List.replicate ((env.buffer.count : Int) * 12).toNat 0)
            (List.map Sample.values env.buffer.drain_all.1).flatten))
        (overwrite (List.replicate env.buffer.count 0)
          (List.map Sample.timestamp env.buffer.drain_all.1))) := by
  have hpk : (cythonShim port).package_length = 12 := rfl
  have hnn : ¬ ((env.buffer.count : Int) < 0) := by omega
  have hnn2 : ¬ ((env.buffer.count : Int) * (cythonShim port).package_length < 0) := by
    rw [hpk]
    omega
  simp only [BoardShim.get_board_data, Bind.bind, Except.bind,
    get_count_ok port env hc, npZeros, hd, StreamExitCodes.value,
    pure, Except.pure, NativeEnv.allWrites, hnn, hnn2, ite_false, if_neg]
  norm_num [Int.toNat_natCast]
  rw [hpk]
  have e1 : npReshape ((env.buffer.count : Int)) 12
      (overwrite (List.replicate ((env.buffer.count : Int) * 12).toNat 0)
        (List.map Sample.values env.buffer.drain_all.1).flatten)
      = .ok (takeRows 12 env.buffer.count
        (overwrite (List.replicate ((env.buffer.count : Int) * 12).toNat 0)
          (List.map Sample.values env.buffer.drain_all.1).flatten)) := by
    rw [npReshape_ok _ _ _ (by omega) (by norm_num)
      (by rw [length_overwrite, List.length_replicate]
          simp only [Int.toNat_natCast, show Int.toNat 12 = 12 from rfl]
          omega)]
    norm_num [Int.toNat_natCast]
    rfl
  simp only [e1]
  have e2 : columnStack (takeRows 12 env.buffer.count
      (overwrite (List.replicate ((env.buffer.count : Int) * 12).toNat 0)
        (List.map Sample.values env.buffer.drain_all.1).flatten))
      (overwrite (List.replicate env.buffer.count 0)
        (List.map Sample.timestamp env.buffer.drain_all.1))
      = .ok (List.zipWith (fun row t => row ++ [t])
        (takeRows 12 env.buffer.count
          (overwrite (List.replicate ((env.buffer.count : Int) * 12).toNat 0)
            (List.map Sample.values env.buffer.drain_all.1).flatten))
        (overwrite (List.replicate env.buffer.count 0)
          (List.map Sample.timestamp env.buffer.drain_all.1))) := by
    rw [columnStack_ok _ _ (by rw [takeRows_length, length_overwrite, List.length_replicate])]
  simp only [e2]

lemma get_board_data_data_err (port : String) (env : NativeEnv)
    (hc : env.countStatus = .STATUS_OK) (hd : env.dataStatus ≠ .STATUS_OK) :
    (cythonShim port).get_board_data env =
      .error (.brainflow (mkDetailed env.dataStatus "unable to get board data")
        env.dataStatus.value) := by
  have hpk : (cythonShim port).package_length = 12 := rfl
  have hnn : ¬ ((env.buffer.count : Int) < 0) := by omega
  have hnn2 : ¬ ((env.buffer.count : Int) * (cythonShim port).package_length < 0) := by
    rw [hpk]
    omega
  have hv := value_ne_zero hd
  simp only [BoardShim.get_board_data, Bind.bind, Except.bind,
    get_count_ok port env hc, npZeros, StreamExitCodes.value,
    pure, Except.pure, NativeEnv.allWrites, hnn, hnn2, ite_false, if_neg,
    throw, throwThe, MonadExceptOf.throw]
  norm_num
  intro h
  exact absurd h hv

lemma get_board_data_count_err (port : String) (env : NativeEnv)
    (hc : env.countStatus ≠ .STATUS_OK) :
    (cythonShim port).get_board_data env =
      .error (.brainflow (mkDetailed env.countStatus "unable to obtain buffer size")
        env.countStatus.value) := by
  simp only [BoardShim.get_board_data, Bind.bind, Except.bind,
    get_count_err port env hc]

lemma statusContract_ite {α : Type} (code : StreamExitCodes) (msg : String) (a : α) :
    statusContract code msg
      (if code.value ≠ StreamExitCodes.STATUS_OK.value then
        Except.error (PyErr.brainflow (mkDetailed code msg) code.value)
      else Except.ok a) := by
  constructor
  · intro h
    subst h
    exact ⟨a, by simp⟩
  · intro h
    rw [if_pos (value_ne_zero h)]

lemma zipWith_append_mem_length (A : List (List Int)) (B : List Int) (k : Nat)
    (hA : ∀ a ∈ A, a.length = k) :
    ∀ row ∈ List.zipWith (fun r t => r ++ [t]) A B, row.length = k + 1 := by
  induction A generalizing B with
  | nil => simp
  | cons a A ih =>
    cases B with
    | nil => simp
    | cons b B =>
      intro row hrow
      simp only [List.zipWith_cons_cons, List.mem_cons] at hrow
      rcases hrow with rfl | h
      · simp [hA a (by simp)]
      · exact ih B (fun x hx => hA x (by simp [hx])) row h

lemma drain_latest_sub (b : SampleBuffer) (n : Int) :
    ∀ s ∈ b.drain_latest n, s ∈ b.samples := by
  intro s hsm
  simp only [SampleBuffer.drain_latest] at hsm
  split at hsm
  · simp at hsm
  · exact List.mem_of_mem_drop hsm

/-- Content lemma: under well-formed samples the returned matrix is the
drained samples themselves, one row per sample. -/
lemma get_current_content (port : String) (env : NativeEnv) (n : Int)
    (hn : 0 ≤ n) (hs : env.currentStatus = .STATUS_OK)
    (hv : ∀ s ∈ env.buffer.samples, s.values.length = 12) :
    (cythonShim port).get_current_board_data env n =
      .ok (some ((env.buffer.drain_latest n).map
        (fun s => s.values ++ [s.timestamp]))) := by
  rw [get_current_ok port env n hn hs]
  have hcle : (env.buffer.drain_latest n).length ≤ n.toNat := by
    rw [drain_latest_length]
    omega
  have hv' : ∀ l ∈ (env.buffer.drain_latest n).map Sample.values, l.length = 12 := by
    intro l hl
    rcases List.mem_map.mp hl with ⟨s, hsm, rfl⟩
    exact hv s (drain_latest_sub env.buffer n s hsm)
  have hdw : ((env.buffer.drain_latest n).map Sample.values).flatten.length
      = 12 * (env.buffer.drain_latest n).length := by
    rw [flatten_length_const hv', List.length_map]
  have hstep1 : overwrite (List.replicate (n * 12).toNat 0)
      ((env.buffer.drain_latest n).map Sample.values).flatten
      = ((env.buffer.drain_latest n).map Sample.values).flatten ++
        (List.replicate (n * 12).toNat 0).drop
          ((env.buffer.drain_latest n).map Sample.values).flatten.length := by
    apply overwrite_of_le
    rw [hdw, List.length_replicate]
    omega
  have hslice2 : pySliceStop
      (((env.buffer.drain_latest n).map Sample.values).flatten ++
        (List.replicate (n * 12).toNat 0).drop
          ((env.buffer.drain_latest n).map Sample.values).flatten.length)
      (((env.buffer.drain_latest n).length : Int) * 12)
      = ((env.buffer.drain_latest n).map Sample.values).flatten := by
    rw [pySliceStop, if_pos (by positivity)]
    have ht : (((env.buffer.drain_latest n).length : Int) * 12).toNat
        = 12 * (env.buffer.drain_latest n).length := by omega
    rw [ht, ← hdw]
    exact List.take_left' rfl
  have htw : ((env.buffer.drain_latest n).map Sample.timestamp).length
      = (env.buffer.drain_latest n).length := List.length_map _ _
  have hstep2 : overwrite (List.replicate n.toNat 0)
      ((env.buffer.drain_latest n).map Sample.timestamp)
      = ((env.buffer.drain_latest n).map Sample.timestamp) ++
        (List.replicate n.toNat 0).drop
          ((env.buffer.drain_latest n).map Sample.timestamp).length := by
    apply overwrite_of_le
    rw [htw, List.length_replicate]
    omega
  have hslice3 : pySliceStop
      (((env.buffer.drain_latest n).map Sample.timestamp) ++
        (List.replicate n.toNat 0).drop
          ((env.buffer.drain_latest n).map Sample.timestamp).length)
      ((env.buffer.drain_latest n).length : Int)
      = (env.buffer.drain_latest n).map Sample.timestamp := by
    rw [pySliceStop, if_pos (by positivity)]
    have ht : (((env.buffer.drain_latest n).length : Int)).toNat
        = (env.buffer.drain_latest n).length := by omega
    rw [ht, ← htw]
    exact List.take_left' rfl
  rw [hstep1, hslice2, hstep2, hslice3]
  have hrows : takeRows 12 (env.buffer.drain_latest n).length
      ((env.buffer.drain_latest n).map Sample.values).flatten
      = (env.buffer.drain_latest n).map Sample.values := by
    rw [show (env.buffer.drain_latest n).length
        = ((env.buffer.drain_latest n).map Sample.values).length from
      (List.length_map _ _).symm]
    exact takeRows_flatten hv'
  rw [hrows, List.zipWith_map]
  rw [List.zipWith_same]

/-- C6: for n greater or equal 1, when the native call succeeds the matrix
returned by get_current_board_data(n) has exactly one row per actually
retained-and-reported sample (count = min(buffer count, n), never more
than n, with no padding rows), each row being that sample's values paired
with its timestamp. -/
theorem get_current_returns_retained (port : String) (env : NativeEnv) (n : Int)
    (hn : 1 ≤ n) (hs : env.currentStatus = .STATUS_OK)
    (hv : ∀ s ∈ env.buffer.samples, s.values.length = 12) :
    (cythonShim port).get_current_board_data env n =
      .ok (some ((env.buffer.drain_latest n).map
        (fun s => s.values ++ [s.timestamp]))) ∧
    (env.buffer.drain_latest n).length = min env.buffer.count n.toNat ∧
    (env.buffer.drain_latest n).length ≤ n.toNat :=
  ⟨get_current_content port env n (by omega) hs hv,
   by rw [drain_latest_length]; rfl,
   by rw [drain_latest_length]; omega⟩

theorem get_current_returns_retained_witness :
    ((1 : Int) ≤ 5 ∧ cEnv.currentStatus = .STATUS_OK ∧
      (∀ s ∈ cEnv.buffer.samples, s.values.length = 12)) ∧
    ((cythonShim "COM3").get_current_board_data cEnv 5 =
      .ok (some ((cEnv.buffer.drain_latest 5).map
        (fun s => s.values ++ [s.timestamp]))) ∧
    (cEnv.buffer.drain_latest 5).length = min cEnv.buffer.count (5 : Int).toNat ∧
    (cEnv.buffer.drain_latest 5).length ≤ (5 : Int).toNat) :=
  ⟨⟨by decide, by decide, by decide⟩,
   get_current_returns_retained "COM3" cEnv 5 (by decide) (by decide) (by decide)⟩

/-- C8: for n greater or equal 1 the None-returning branch guarded by
len(current_size) == 0 is unreachable — the call never evaluates to
Ok none, whatever the native status — and on native success it returns
an actual matrix. -/
theorem get_current_never_none (port : String) (env : NativeEnv) (n : Int)
    (hn : 1 ≤ n) :
    (cythonShim port).get_current_board_data env n ≠ .ok none ∧
      (env.currentStatus = .STATUS_OK →
        ∃ m, (cythonShim port).get_current_board_data env n = .ok (some m)) := by
  by_cases hs : env.currentStatus = .STATUS_OK
  · rw [get_current_ok port env n (by omega) hs]
    exact ⟨by simp, fun _ => ⟨_, rfl⟩⟩
  · rw [get_current_err port env n (by omega) hs]
    exact ⟨by simp, fun h => absurd h hs⟩

theorem get_current_never_none_witness :
    (1 : Int) ≤ 1 ∧
      ((cythonShim "COM3").get_current_board_data cEnv 1 ≠ .ok none ∧
        (cEnv.currentStatus = .STATUS_OK →
          ∃ m, (cythonShim "COM3").get_current_board_data cEnv 1 = .ok (some m))) :=
  ⟨by decide, get_current_never_none "COM3" cEnv 1 (by decide)⟩

/-- C2 counterexample: at n = -1 (an integer at most 0) the call raises a
numpy ValueError from the negative allocation instead of signalling an
empty result, refuting the claim as stated. -/
theorem get_current_negative_raises :
    (cythonShim "COM3").get_current_board_data cEnv (-1) =
      .error (.valueError "negative dimensions are not allowed") := by
  rfl

/-- C2 (amended): for n strictly negative, get_current_board_data(n)
raises a ValueError from the negative array allocation before any native
call; only n = 0 yields a non-erroring empty result (given native
success). -/
theorem get_current_nonpositive (port : String) (env : NativeEnv) (n : Int) :
    (n < 0 → (cythonShim port).get_current_board_data env n =
      .error (.valueError "negative dimensions are not allowed")) ∧
    (n = 0 → env.currentStatus = .STATUS_OK →
      (cythonShim port).get_current_board_data env n = .ok (some [])) := by
  constructor
  · exact fun h => get_current_neg port env n h
  · rintro rfl hs
    rw [get_current_ok port env 0 le_rfl hs]
    simp [SampleBuffer.drain_latest, takeRows]

theorem get_current_nonpositive_witness :
    ((-1 : Int) < 0 ∧ (cythonShim "COM3").get_current_board_data cEnv (-1) =
      .error (.valueError "negative dimensions are not allowed")) ∧
    (cythonShim "COM3").get_current_board_data cEnv 0 = .ok (some []) :=
  ⟨⟨by decide, (get_current_nonpositive "COM3" cEnv (-1)).1 (by decide)⟩,
   (get_current_nonpositive "COM3" cEnv 0).2 rfl (by decide)⟩

/-- C1 counterexample: on the supported board a successful get_board_data
call returns rows of 13 columns (package_length 12 plus the timestamp),
not num_eeg_channels + 1 = 9 as claimed. -/
theorem get_board_data_columns_counterexample :
    ((cythonShim "COM3").get_board_data cEnv).toOption.isSome = true ∧
    ¬ (∀ row ∈ ((cythonShim "COM3").get_board_data cEnv).toOption.getD [],
        row.length = ((cythonShim "COM3").num_eeg_channels + 1).toNat) ∧
    (∀ row ∈ ((cythonShim "COM3").get_board_data cEnv).toOption.getD [],
        row.length = ((cythonShim "COM3").package_length + 1).toNat) := by
  decide

/-- C1 (amended): every successful get_board_data call returns a table
with one row per sample counted by get_board_data_count at the start of
the call, and package_length + 1 = 13 columns (the 12 package values
followed by one timestamp column), not 9. -/
theorem get_board_data_shape (port : String) (env : NativeEnv)
    (hc : env.countStatus = .STATUS_OK) (hd : env.dataStatus = .STATUS_OK) :
    (cythonShim port).get_board_data_count env = .ok (env.buffer.count : Int) ∧
    ∃ m, (cythonShim port).get_board_data env = .ok m ∧
      m.length = env.buffer.count ∧
      (∀ row ∈ m, row.length = 13) ∧
      ((cythonShim port).package_length + 1 : Int) = 13 := by
  refine ⟨get_count_ok port env hc, ?_⟩
  rw [get_board_data_ok port env hc hd]
  refine ⟨_, rfl, ?_, ?_, rfl⟩
  · rw [List.length_zipWith, takeRows_length, length_overwrite, List.length_replicate]
    simp
  · have hlen : (overwrite (List.replicate ((env.buffer.count : Int) * 12).toNat 0)
        (List.map Sample.values env.buffer.drain_all.1).flatten).length
        = env.buffer.count * 12 := by
      rw [length_overwrite, List.length_replicate]
      omega
    exact zipWith_append_mem_length _ _ 12 (takeRows_row_length 12 hlen)

theorem get_board_data_shape_witness :
    (cEnv.countStatus = .STATUS_OK ∧ cEnv.dataStatus = .STATUS_OK) ∧
    ((cythonShim "COM3").get_board_data_count cEnv = .ok (cEnv.buffer.count : Int) ∧
      ∃ m, (cythonShim "COM3").get_board_data cEnv = .ok m ∧
        m.length = cEnv.buffer.count ∧
        (∀ row ∈ m, row.length = 13) ∧
        ((cythonShim "COM3").package_length + 1 : Int) = 13) :=
  ⟨⟨by decide, by decide⟩, get_board_data_shape "COM3" cEnv (by decide) (by decide)⟩

/-- C4: every public operation of the binding completes normally exactly
when its native call reports STATUS_OK, and on any nonzero status raises
BrainFlowError whose exit_code is that status and whose detailed message
names the error kind (statusContract); for get_board_data the failing
native call (count first, then data) determines the raised error. -/
theorem status_code_contract (port : String) (env : NativeEnv) (bsize n : Int)
    (hn : 1 ≤ n) :
    statusContract (env.prepareStatus (cythonShim port).board_id (cythonShim port).port_name)
      "unable to prepare streaming session" ((cythonShim port).prepare_session env) ∧
    statusContract (env.startStatus bsize) "unable to start streaming session"
      ((cythonShim port).start_stream env bsize) ∧
    statusContract env.stopStatus "unable to stop streaming session"
      ((cythonShim port).stop_stream env) ∧
    statusContract env.releaseStatus "unable to release streaming session"
      ((cythonShim port).release_session env) ∧
    statusContract (env.logStatus 2) "unable to enable logger"
      (BoardShim.enable_board_logger env) ∧
    statusContract (env.logStatus 6) "unable to disable logger"
      (BoardShim.disable_board_logger env) ∧
    statusContract (env.logStatus 0) "unable to enable logger"
      (BoardShim.enable_dev_board_logger env) ∧
    statusContract env.countStatus "unable to obtain buffer size"
      ((cythonShim port).get_board_data_count env) ∧
    statusContract env.currentStatus "unable to get current data"
      ((cythonShim port).get_current_board_data env n) ∧
    (env.countStatus = .STATUS_OK →
      statusContract env.dataStatus "unable to get board data"
        ((cythonShim port).get_board_data env)) ∧
    (env.countStatus ≠ .STATUS_OK →
      (cythonShim port).get_board_data env =
        .error (.brainflow (mkDetailed env.countStatus "unable to obtain buffer size")
          env.countStatus.value)) := by
  refine ⟨statusContract_ite _ _ (), statusContract_ite _ _ (),
    statusContract_ite _ _ (), statusContract_ite _ _ (),
    statusContract_ite _ _ (), statusContract_ite _ _ (),
    statusContract_ite _ _ (), ?_, ?_, ?_, ?_⟩
  · constructor
    · intro h
      exact ⟨_, get_count_ok port env h⟩
    · intro h
      exact get_count_err port env h
  · constructor
    · intro h
      exact ⟨_, get_current_ok port env n (by omega) h⟩
    · intro h
      exact get_current_err port env n (by omega) h
  · intro hc
    constructor
    · intro h
      exact ⟨_, get_board_data_ok port env hc h⟩
    · intro h
      exact get_board_data_data_err port env hc h
  · intro hc
    exact get_board_data_count_err port env hc

theorem status_code_contract_witness :
    (1 : Int) ≤ 1 ∧
    (statusContract (cEnv.prepareStatus (cythonShim "COM3").board_id (cythonShim "COM3").port_name)
      "unable to prepare streaming session" ((cythonShim "COM3").prepare_session cEnv) ∧
    statusContract (cEnv.startStatus 900000) "unable to start streaming session"
      ((cythonShim "COM3").start_stream cEnv 900000) ∧
    statusContract cEnv.stopStatus "unable to stop streaming session"
      ((cythonShim "COM3").stop_stream cEnv) ∧
    statusContract cEnv.releaseStatus "unable to release streaming session"
      ((cythonShim "COM3").release_session cEnv) ∧
    statusContract (cEnv.logStatus 2) "unable to enable logger"
      (BoardShim.enable_board_logger cEnv) ∧
    statusContract (cEnv.logStatus 6) "unable to disable logger"
      (BoardShim.disable_board_logger cEnv) ∧
    statusContract (cEnv.logStatus 0) "unable to enable logger"
      (BoardShim.enable_dev_board_logger cEnv) ∧
    statusContract cEnv.countStatus "unable to obtain buffer size"
      ((cythonShim "COM3").get_board_data_count cEnv) ∧
    statusContract cEnv.currentStatus "unable to get current data"
      ((cythonShim "COM3").get_current_board_data cEnv 1) ∧
    (cEnv.countStatus = .STATUS_OK →
      statusContract cEnv.dataStatus "unable to get board data"
        ((cythonShim "COM3").get_board_data cEnv)) ∧
    (cEnv.countStatus ≠ .STATUS_OK →
      (cythonShim "COM3").get_board_data cEnv =
        .error (.brainflow (mkDetailed cEnv.countStatus "unable to obtain buffer size")
          cEnv.countStatus.value))) :=
  ⟨by decide, status_code_contract "COM3" cEnv 900000 1 (by decide)⟩
